import Mathlib

/-!
Verification of `copy_to` from `atom/common/api/atom_skia_utils.h`.

The repository contains only the declaration

  bool copy_to(SkBitmap* dst, SkColorType dstColorType, const SkBitmap& src);

inside an anonymous namespace; the function body is not part of the
repository's sources.  The behaviour of `copy_to` is therefore modelled from
the specification (sections 3, 4, 7 and 8 of spec.md): a bitmap is a pixel
buffer plus format metadata, and `copy_to` re-encodes the source's pixels
into the requested destination color type, reporting failure for an
empty/invalid source, an unsupported destination color type, or a failed
destination allocation.
-/

set_option autoImplicit false

/-- Color types relevant to the specification: the two supported 8-bit,
4-channel encodings (channel orders RGBA and BGRA) and an unknown/unsupported
encoding. -/
inductive SkColorType where
  | kUnknown_SkColorType
  | kRGBA_8888_SkColorType
  | kBGRA_8888_SkColorType
  deriving DecidableEq, Repr

/-- A color type is supported for conversion when it is one of the known
4-byte encodings. -/
def SkColorType.supported : SkColorType → Bool
  | .kUnknown_SkColorType => false
  | .kRGBA_8888_SkColorType => true
  | .kBGRA_8888_SkColorType => true

/-- Bytes per pixel of each color type. -/
def SkColorType.bytesPerPixel : SkColorType → Nat
  | .kUnknown_SkColorType => 0
  | .kRGBA_8888_SkColorType => 4
  | .kBGRA_8888_SkColorType => 4

/-- A decoded pixel: red, green, blue and alpha channel values. -/
structure Pixel where
  r : Nat
  g : Nat
  b : Nat
  a : Nat
  deriving DecidableEq, Repr

/-- Decode one 4-byte group of a pixel buffer into channel values, according
to the channel order of the color type.  Only supported color types are ever
decoded by `copy_to`; the unknown color type decodes to a zero pixel. -/
def decodePixel : SkColorType → Nat → Nat → Nat → Nat → Pixel
  | .kRGBA_8888_SkColorType, c0, c1, c2, c3 => ⟨c0, c1, c2, c3⟩
  | .kBGRA_8888_SkColorType, c0, c1, c2, c3 => ⟨c2, c1, c0, c3⟩
  | .kUnknown_SkColorType, _, _, _, _ => ⟨0, 0, 0, 0⟩

/-- Encode a pixel's channel values as bytes in the channel order of the
color type. -/
def encodePixel : SkColorType → Pixel → List Nat
  | .kRGBA_8888_SkColorType, p => [p.r, p.g, p.b, p.a]
  | .kBGRA_8888_SkColorType, p => [p.b, p.g, p.r, p.a]
  | .kUnknown_SkColorType, _ => []

/-- Per-pixel conversion of a byte buffer: decode each 4-byte group according
to the source color type and re-encode it according to the destination color
type.  A trailing group of fewer than 4 bytes (impossible for a valid
buffer) is dropped. -/
def convertBytes (srcCT dstCT : SkColorType) : List Nat → List Nat
  | c0 :: c1 :: c2 :: c3 :: rest =>
      encodePixel dstCT (decodePixel srcCT c0 c1 c2 c3) ++
        convertBytes srcCT dstCT rest
  | _ => []

/-- An SkBitmap, modelled as its format metadata together with its pixel
buffer as a list of bytes. -/
structure SkBitmap where
  width : Nat
  height : Nat
  colorType : SkColorType
  bytes : List Nat
  deriving DecidableEq, Repr

/-- A bitmap draws nothing when it has a zero dimension or no pixel
buffer. -/
def SkBitmap.drawsNothing (b : SkBitmap) : Bool :=
  b.width == 0 || b.height == 0 || b.bytes.isEmpty

/-- A bitmap is valid when its color type is supported and its buffer holds
exactly width × height pixels of that color type. -/
def SkBitmap.valid (b : SkBitmap) : Bool :=
  b.colorType.supported &&
    b.bytes.length == b.width * b.height * b.colorType.bytesPerPixel

/-- Modelled from the spec: the body of `copy_to` is absent from the
repository (the header only declares it), so its behaviour is taken from
spec.md sections 4 and 7.  Given a destination bitmap (passed by pointer in
the C++ signature, here threaded through as state), a requested destination
color type and a source bitmap, `copy_to` fails — leaving the destination
unchanged — when the source is empty or invalid, when the requested color
type is unsupported, or when allocating the destination buffer fails (the
allocator's outcome is the explicit `allocOk` argument); otherwise it
allocates a destination buffer sized to the source's dimensions, fills it
with the source's pixels re-encoded into the requested color type, and
succeeds.  The result is the returned `Bool` together with the
post-call destination and source bitmaps. -/
def copy_to (allocOk : Bool) (dst : SkBitmap) (dstColorType : SkColorType)
    (src : SkBitmap) : Bool × SkBitmap × SkBitmap :=
  if src.drawsNothing then (false, dst, src)
  else if !src.valid then (false, dst, src)
  else if !dstColorType.supported then (false, dst, src)
  else if !allocOk then (false, dst, src)
  else
    (true,
      { width := src.width, height := src.height, colorType := dstColorType,
        bytes := convertBytes src.colorType dstColorType src.bytes },
      src)

/-- Modelled from the spec: the C++ parameter `dst` is a raw `SkBitmap*`
with no non-null guarantee, so the pointer is modelled as an `Option`; a
null destination is treated as a failure case, and a non-null destination
behaves as `copy_to` on the pointee. -/
def copy_to_ptr (allocOk : Bool) (dst : Option SkBitmap)
    (dstColorType : SkColorType) (src : SkBitmap) :
    Bool × Option SkBitmap × SkBitmap :=
  match dst with
  | none => (false, none, src)
  | some d =>
      let r := copy_to allocOk d dstColorType src
      (r.1, some r.2.1, r.2.2)

/-- The 2×2 RGBA_8888 sample source image of the spec's concrete scenario:
pixels (255,0,0,255), (0,255,0,255), (0,0,255,255), (255,255,255,0). -/
def sampleSrc : SkBitmap :=
  { width := 2, height := 2, colorType := .kRGBA_8888_SkColorType,
    bytes := [255, 0, 0, 255, 0, 255, 0, 255, 0, 0, 255, 255, 255, 255, 255, 0] }

/-- An initial (empty) destination bitmap used in concrete scenarios. -/
def sampleDst : SkBitmap :=
  { width := 0, height := 0, colorType := .kUnknown_SkColorType, bytes := [] }

/-- Converting a buffer to the color type it already has is the identity on
aligned buffers: the fast path of copying the bytes unchanged agrees with the
per-pixel conversion. -/
theorem convertBytes_id (ct : SkColorType) (h : ct.supported = true) :
    ∀ l : List Nat, l.length % 4 = 0 → convertBytes ct ct l = l := by
  intro l
  induction l using convertBytes.induct ct ct with
  | case1 c0 c1 c2 c3 rest ih =>
      intro hl
      rw [convertBytes]
      cases ct with
      | kUnknown_SkColorType => simp [SkColorType.supported] at h
      | kRGBA_8888_SkColorType =>
          simp only [decodePixel, encodePixel]
          simp only [List.length_cons] at hl
          simp [ih (by omega)]
      | kBGRA_8888_SkColorType =>
          simp only [decodePixel, encodePixel]
          simp only [List.length_cons] at hl
          simp [ih (by omega)]
  | case2 l hl' =>
      intro hl
      rcases l with _ | ⟨c0, _ | ⟨c1, _ | ⟨c2, _ | ⟨c3, rest⟩⟩⟩⟩
      · rfl
      · simp at hl
      · simp at hl
      · simp at hl
      · exact (hl' c0 c1 c2 c3 rest rfl).elim

/-- Every supported color type encodes a pixel in exactly four bytes. -/
theorem encodePixel_length (ct : SkColorType) (h : ct.supported = true)
    (p : Pixel) : (encodePixel ct p).length = 4 := by
  cases ct with
  | kUnknown_SkColorType => simp [SkColorType.supported] at h
  | kRGBA_8888_SkColorType => rfl
  | kBGRA_8888_SkColorType => rfl

/-- Every supported color type has four bytes per pixel. -/
theorem bytesPerPixel_of_supported (ct : SkColorType)
    (h : ct.supported = true) : ct.bytesPerPixel = 4 := by
  cases ct with
  | kUnknown_SkColorType => simp [SkColorType.supported] at h
  | kRGBA_8888_SkColorType => rfl
  | kBGRA_8888_SkColorType => rfl

/-- Two conversions in sequence through a supported intermediate color type
agree with the direct conversion. -/
theorem convertBytes_comp (t1 t2 t3 : SkColorType) (h2 : t2.supported = true) :
    ∀ l : List Nat,
      convertBytes t2 t3 (convertBytes t1 t2 l) = convertBytes t1 t3 l := by
  intro l
  induction l using convertBytes.induct t1 t2 with
  | case1 c0 c1 c2 c3 rest ih =>
      rw [convertBytes]
      rw [show convertBytes t1 t3 (c0 :: c1 :: c2 :: c3 :: rest) =
        encodePixel t3 (decodePixel t1 c0 c1 c2 c3) ++ convertBytes t1 t3 rest
        from rfl]
      cases t2 with
      | kUnknown_SkColorType => simp [SkColorType.supported] at h2
      | kRGBA_8888_SkColorType =>
          simp only [encodePixel, List.cons_append, List.nil_append]
          rw [convertBytes]
          rw [ih]
          exact rfl
      | kBGRA_8888_SkColorType =>
          simp only [encodePixel, List.cons_append, List.nil_append]
          rw [convertBytes]
          rw [ih]
          exact rfl
  | case2 l hl' =>
      rcases l with _ | ⟨c0, _ | ⟨c1, _ | ⟨c2, _ | ⟨c3, rest⟩⟩⟩⟩
      · rfl
      · rfl
      · rfl
      · rfl
      · exact (hl' c0 c1 c2 c3 rest rfl).elim

/-- Conversion into a supported color type preserves the byte length of an
aligned buffer. -/
theorem convertBytes_length (t1 t2 : SkColorType) (h2 : t2.supported = true) :
    ∀ l : List Nat, l.length % 4 = 0 →
      (convertBytes t1 t2 l).length = l.length := by
  intro l
  induction l using convertBytes.induct t1 t2 with
  | case1 c0 c1 c2 c3 rest ih =>
      intro hl
      rw [convertBytes]
      simp only [List.length_cons] at hl
      simp [List.length_append, encodePixel_length t2 h2, ih (by omega),
        List.length_cons]
      omega
  | case2 l hl' =>
      intro hl
      rcases l with _ | ⟨c0, _ | ⟨c1, _ | ⟨c2, _ | ⟨c3, rest⟩⟩⟩⟩
      · rfl
      · simp at hl
      · simp at hl
      · simp at hl
      · exact (hl' c0 c1 c2 c3 rest rfl).elim

/-- A valid bitmap has a supported color type and a buffer of exactly
width × height × 4 bytes. -/
theorem valid_components (b : SkBitmap) (h : b.valid = true) :
    b.colorType.supported = true ∧
      b.bytes.length = b.width * b.height * 4 := by
  simp only [SkBitmap.valid, Bool.and_eq_true, beq_iff_eq] at h
  exact ⟨h.1, by rw [h.2, bytesPerPixel_of_supported _ h.1]⟩

/-- A bitmap that draws something has nonzero dimensions and a nonempty
buffer. -/
theorem drawsNothing_false (b : SkBitmap) (h : b.drawsNothing = false) :
    b.width ≠ 0 ∧ b.height ≠ 0 ∧ b.bytes ≠ [] := by
  simp only [SkBitmap.drawsNothing, Bool.or_eq_false_iff, beq_eq_false_iff_ne,
    ne_eq] at h
  exact ⟨h.1.1, h.1.2, by simpa using h.2⟩

/-- On a drawable, valid source and a supported destination color type (with
allocation succeeding), `copy_to` takes the success branch and produces the
converted destination bitmap. -/
theorem copy_to_success (dst src : SkBitmap) (ct : SkColorType)
    (hne : src.drawsNothing = false) (hv : src.valid = true)
    (hct : ct.supported = true) :
    copy_to true dst ct src =
      (true,
        { width := src.width, height := src.height, colorType := ct,
          bytes := convertBytes src.colorType ct src.bytes },
        src) := by
  simp [copy_to, hne, hv, hct]

/-- C1: for every valid, drawable source bitmap and supported requested
destination color type, a successful `copy_to` returns true and leaves the
destination's buffer sized to the source's dimensions and populated with the
source's pixel data re-encoded into the requested color type. -/
theorem copy_to_success_postcondition (dst src : SkBitmap) (ct : SkColorType)
    (hv : src.valid = true) (hne : src.drawsNothing = false)
    (hct : ct.supported = true) :
    (copy_to true dst ct src).1 = true ∧
    ((copy_to true dst ct src).2.1).width = src.width ∧
    ((copy_to true dst ct src).2.1).height = src.height ∧
    ((copy_to true dst ct src).2.1).colorType = ct ∧
    ((copy_to true dst ct src).2.1).bytes
      = convertBytes src.colorType ct src.bytes ∧
    ((copy_to true dst ct src).2.1).bytes.length
      = src.width * src.height * 4 := by
  obtain ⟨hsup, hlen⟩ := valid_components src hv
  rw [copy_to_success dst src ct hne hv hct]
  refine ⟨rfl, rfl, rfl, rfl, rfl, ?_⟩
  show (convertBytes src.colorType ct src.bytes).length = _
  rw [convertBytes_length src.colorType ct hct src.bytes (by omega)]
  exact hlen

/-- C1 witness: the postcondition holds concretely for the 2×2 sample source
converted to BGRA_8888. -/
theorem copy_to_success_postcondition_witness :
    sampleSrc.valid = true ∧ sampleSrc.drawsNothing = false ∧
      SkColorType.kBGRA_8888_SkColorType.supported = true ∧
      ((copy_to true sampleDst SkColorType.kBGRA_8888_SkColorType
          sampleSrc).1 = true ∧
        ((copy_to true sampleDst SkColorType.kBGRA_8888_SkColorType
            sampleSrc).2.1).width = sampleSrc.width ∧
        ((copy_to true sampleDst SkColorType.kBGRA_8888_SkColorType
            sampleSrc).2.1).height = sampleSrc.height ∧
        ((copy_to true sampleDst SkColorType.kBGRA_8888_SkColorType
            sampleSrc).2.1).colorType = SkColorType.kBGRA_8888_SkColorType ∧
        ((copy_to true sampleDst SkColorType.kBGRA_8888_SkColorType
            sampleSrc).2.1).bytes
          = convertBytes sampleSrc.colorType
              SkColorType.kBGRA_8888_SkColorType sampleSrc.bytes ∧
        ((copy_to true sampleDst SkColorType.kBGRA_8888_SkColorType
            sampleSrc).2.1).bytes.length
          = sampleSrc.width * sampleSrc.height * 4) :=
  ⟨by decide, by decide, by decide,
    copy_to_success_postcondition sampleDst sampleSrc
      SkColorType.kBGRA_8888_SkColorType (by decide) (by decide) (by decide)⟩

/-- C2: for every valid, drawable source bitmap, calling `copy_to` with the
requested destination color type equal to the source's own color type
succeeds and yields a destination whose pixel buffer is byte-for-byte
identical to the source's buffer. -/
theorem copy_to_identity (dst src : SkBitmap)
    (hv : src.valid = true) (hne : src.drawsNothing = false) :
    (copy_to true dst src.colorType src).1 = true ∧
    ((copy_to true dst src.colorType src).2.1).bytes = src.bytes := by
  obtain ⟨hsup, hlen⟩ := valid_components src hv
  rw [copy_to_success dst src src.colorType hne hv hsup]
  exact ⟨rfl, convertBytes_id src.colorType hsup src.bytes (by omega)⟩

/-- C2 witness: the identity law holds concretely for the 2×2 RGBA sample
source. -/
theorem copy_to_identity_witness :
    sampleSrc.valid = true ∧ sampleSrc.drawsNothing = false ∧
      ((copy_to true sampleDst sampleSrc.colorType sampleSrc).1 = true ∧
        ((copy_to true sampleDst sampleSrc.colorType sampleSrc).2.1).bytes
          = sampleSrc.bytes) :=
  ⟨by decide, by decide,
    copy_to_identity sampleDst sampleSrc (by decide) (by decide)⟩

/-- C3: for every valid, drawable source bitmap and every supported
destination color type, converting to the destination type and then back to
the source's own color type succeeds and reproduces the original pixel
buffer exactly (round-trip law; every supported pair is a lossless channel
permutation). -/
theorem copy_to_roundtrip (d1 d2 src : SkBitmap) (ct : SkColorType)
    (hv : src.valid = true) (hne : src.drawsNothing = false)
    (hct : ct.supported = true) :
    (copy_to true d1 ct src).1 = true ∧
    (copy_to true d2 src.colorType ((copy_to true d1 ct src).2.1)).1 = true ∧
    ((copy_to true d2 src.colorType ((copy_to true d1 ct src).2.1)).2.1).bytes
      = src.bytes := by
  obtain ⟨hsup, hlen⟩ := valid_components src hv
  obtain ⟨hw, hh, hb⟩ := drawsNothing_false src hne
  rw [copy_to_success d1 src ct hne hv hct]
  have hlen1 : (convertBytes src.colorType ct src.bytes).length
      = src.width * src.height * 4 := by
    rw [convertBytes_length src.colorType ct hct src.bytes (by omega)]
    exact hlen
  have hpos : 0 < src.bytes.length := List.length_pos.mpr hb
  have hne1 : (⟨src.width, src.height, ct,
      convertBytes src.colorType ct src.bytes⟩ : SkBitmap).drawsNothing
      = false := by
    simp only [SkBitmap.drawsNothing, Bool.or_eq_false_iff,
      beq_eq_false_iff_ne, ne_eq]
    refine ⟨⟨hw, hh⟩, ?_⟩
    have : (convertBytes src.colorType ct src.bytes).length ≠ 0 := by omega
    simpa [List.isEmpty_iff, ← List.length_eq_zero] using this
  have hv1 : (⟨src.width, src.height, ct,
      convertBytes src.colorType ct src.bytes⟩ : SkBitmap).valid = true := by
    simp only [SkBitmap.valid, Bool.and_eq_true, beq_iff_eq]
    exact ⟨hct, by rw [bytesPerPixel_of_supported ct hct]; exact hlen1⟩
  rw [copy_to_success d2 _ src.colorType hne1 hv1 hsup]
  refine ⟨rfl, rfl, ?_⟩
  show convertBytes ct src.colorType
      (convertBytes src.colorType ct src.bytes) = src.bytes
  rw [convertBytes_comp src.colorType ct src.colorType hct src.bytes]
  exact convertBytes_id src.colorType hsup src.bytes (by omega)

/-- C3 witness: the RGBA → BGRA → RGBA round trip reproduces the 2×2 sample
source exactly. -/
theorem copy_to_roundtrip_witness :
    sampleSrc.valid = true ∧ sampleSrc.drawsNothing = false ∧
      SkColorType.kBGRA_8888_SkColorType.supported = true ∧
      ((copy_to true sampleDst SkColorType.kBGRA_8888_SkColorType
          sampleSrc).1 = true ∧
        (copy_to true sampleDst sampleSrc.colorType
          ((copy_to true sampleDst SkColorType.kBGRA_8888_SkColorType
            sampleSrc).2.1)).1 = true ∧
        ((copy_to true sampleDst sampleSrc.colorType
          ((copy_to true sampleDst SkColorType.kBGRA_8888_SkColorType
            sampleSrc).2.1)).2.1).bytes = sampleSrc.bytes) :=
  ⟨by decide, by decide, by decide,
    copy_to_roundtrip sampleDst sampleDst sampleSrc
      SkColorType.kBGRA_8888_SkColorType (by decide) (by decide) (by decide)⟩

/-- C4: converting the 2×2 RGBA_8888 source with pixels (255,0,0,255),
(0,255,0,255), (0,0,255,255), (255,255,255,0) to BGRA_8888 succeeds and
yields the destination pixel bytes (0,0,255,255), (0,255,0,255),
(255,0,0,255), (255,255,255,0): red and blue swapped, alpha preserved in
every pixel. -/
theorem copy_to_sample_bgra :
    copy_to true sampleDst SkColorType.kBGRA_8888_SkColorType sampleSrc =
      (true,
        { width := 2, height := 2,
          colorType := SkColorType.kBGRA_8888_SkColorType,
          bytes := [0, 0, 255, 255, 0, 255, 0, 255, 255, 0, 0, 255,
            255, 255, 255, 0] },
        sampleSrc) := by decide

/-- C5: `copy_to` fails exactly when the source is empty or invalid, the
requested destination color type is unsupported, or allocation of the
destination buffer fails; in particular it fails on an empty source. -/
theorem copy_to_fail_iff (allocOk : Bool) (dst : SkBitmap) (ct : SkColorType)
    (src : SkBitmap) :
    (copy_to allocOk dst ct src).1 = false ↔
      src.drawsNothing = true ∨ src.valid = false ∨
        ct.supported = false ∨ allocOk = false := by
  cases hd : src.drawsNothing <;> cases hv : src.valid <;>
    cases hct : ct.supported <;> cases allocOk <;>
      simp [copy_to, hd, hv, hct]

/-- C6: whenever `copy_to` fails, the destination bitmap is left exactly as
it was before the call — no partial writes are observable. -/
theorem copy_to_fail_leaves_dst (allocOk : Bool) (dst : SkBitmap)
    (ct : SkColorType) (src : SkBitmap)
    (h : (copy_to allocOk dst ct src).1 = false) :
    (copy_to allocOk dst ct src).2.1 = dst := by
  cases hd : src.drawsNothing <;> cases hv : src.valid <;>
    cases hct : ct.supported <;> cases allocOk <;>
      simp_all [copy_to, hd, hv, hct]

/-- C6 witness: converting from the empty sample bitmap fails and leaves the
destination untouched. -/
theorem copy_to_fail_leaves_dst_witness :
    (copy_to true sampleSrc SkColorType.kRGBA_8888_SkColorType
        sampleDst).1 = false ∧
      (copy_to true sampleSrc SkColorType.kRGBA_8888_SkColorType
        sampleDst).2.1 = sampleSrc :=
  ⟨by decide,
    copy_to_fail_leaves_dst true sampleSrc SkColorType.kRGBA_8888_SkColorType
      sampleDst (by decide)⟩

/-- C7: `copy_to` never mutates the source bitmap: on every path, succeeding
or failing, the source component of the post-call state equals the input
source. -/
theorem copy_to_preserves_src (allocOk : Bool) (dst : SkBitmap)
    (ct : SkColorType) (src : SkBitmap) :
    (copy_to allocOk dst ct src).2.2 = src := by
  cases hd : src.drawsNothing <;> cases hv : src.valid <;>
    cases hct : ct.supported <;> cases allocOk <;>
      simp [copy_to, hd, hv, hct]

/-- C8: `copy_to` is deterministic — equal inputs give equal results and
equal post-call states — and for an unsupported requested destination color
type the same input always yields the same failure. -/
theorem copy_to_deterministic (a1 a2 : Bool) (d1 d2 : SkBitmap)
    (ct1 ct2 : SkColorType) (s1 s2 : SkBitmap)
    (ha : a1 = a2) (hd : d1 = d2) (hct : ct1 = ct2) (hs : s1 = s2) :
    copy_to a1 d1 ct1 s1 = copy_to a2 d2 ct2 s2 ∧
      (ct1.supported = false → (copy_to a1 d1 ct1 s1).1 = false) := by
  subst ha hd hct hs
  refine ⟨rfl, fun h => ?_⟩
  cases hdn : s1.drawsNothing <;> cases hv : s1.valid <;> cases a1 <;>
    simp [copy_to, hdn, hv, h]

/-- C8 witness: two equal calls with the unsupported color type agree and
fail. -/
theorem copy_to_deterministic_witness :
    copy_to true sampleDst SkColorType.kUnknown_SkColorType sampleSrc =
        copy_to true sampleDst SkColorType.kUnknown_SkColorType sampleSrc ∧
      (copy_to true sampleDst SkColorType.kUnknown_SkColorType
        sampleSrc).1 = false :=
  ⟨(copy_to_deterministic true true sampleDst sampleDst
      SkColorType.kUnknown_SkColorType SkColorType.kUnknown_SkColorType
      sampleSrc sampleSrc rfl rfl rfl rfl).1,
    (copy_to_deterministic true true sampleDst sampleDst
      SkColorType.kUnknown_SkColorType SkColorType.kUnknown_SkColorType
      sampleSrc sampleSrc rfl rfl rfl rfl).2 (by decide)⟩

/-- C10: the declared interface takes the destination as a raw pointer with
no non-null guarantee; the total embedding models it as an `Option` and
treats a null destination as a failure case, leaving the destination null
and the source untouched. -/
theorem copy_to_ptr_null (allocOk : Bool) (ct : SkColorType)
    (src : SkBitmap) :
    copy_to_ptr allocOk none ct src = (false, none, src) := rfl
